import Mathlib

/-!
Verification of the form-bridge Gateway authentication subsystem.

This file gives a shallow embedding, in Lean 4, of the request-authentication
and abuse-control code of the form-bridge repository, and proves (or refutes)
the frozen specification claims about it.  The embedded sources are:

* `src/lambdas/optimized-hmac-authorizer.py` (namespace `Optimized`)
* `src/ultra-simple/handler.py` (namespace `UltraSimple`)
* `src/lambdas/wp-plugin-auth/shared_utils.py` and
  `src/lambdas/wp-plugin-auth/authentication.py` (namespace `RateLimiting`)
* `src/docs/examples/wordpress-auth/security-implementation.py`
  (namespace `SecurityImpl`)

Machine integers do not occur: the Python code works with unbounded ints,
floats used only for wall-clock seconds (embedded as `ℚ`), and `bytes`
(embedded as `List Nat`, each element a byte value).  HMAC-SHA256 is embedded
concretely (`sha256`, `hmacSha256` below) so that signature-level claims can
be settled on genuine digests; the implementation is checked against the
FIPS 180-4 and RFC 4231 test vectors.
-/

/-! ## Byte-level primitives: SHA-256, HMAC, hex, UTF-8

Faithful embeddings of the library primitives the Python sources call
(`hashlib.sha256`, `hmac.new(...).hexdigest()`, `str.encode('utf-8')`).
Bytes are `Nat`s below 256; 32-bit words are `Nat`s reduced mod 2^32.
-/

/-- Addition of 32-bit words (Python ints are unbounded; SHA-256 reduces
mod 2^32 at every step). -/
def add32 (a b : Nat) : Nat := (a + b) % 4294967296

/-- Right rotation of a 32-bit word by `n` bits. -/
def rotr32 (n x : Nat) : Nat :=
  ((x >>> n) ||| (x <<< (32 - n))) &&& 0xFFFFFFFF

/-- SHA-256 Σ0. -/
def bigSigma0 (x : Nat) : Nat := (rotr32 2 x) ^^^ (rotr32 13 x) ^^^ (rotr32 22 x)

/-- SHA-256 Σ1. -/
def bigSigma1 (x : Nat) : Nat := (rotr32 6 x) ^^^ (rotr32 11 x) ^^^ (rotr32 25 x)

/-- SHA-256 σ0. -/
def smallSigma0 (x : Nat) : Nat := (rotr32 7 x) ^^^ (rotr32 18 x) ^^^ (x >>> 3)

/-- SHA-256 σ1. -/
def smallSigma1 (x : Nat) : Nat := (rotr32 17 x) ^^^ (rotr32 19 x) ^^^ (x >>> 10)

/-- SHA-256 Ch; the complement of `e` is taken inside 32 bits. -/
def chFn (e f g : Nat) : Nat := (e &&& f) ^^^ ((e ^^^ 0xFFFFFFFF) &&& g)

/-- SHA-256 Maj. -/
def majFn (a b c : Nat) : Nat := (a &&& b) ^^^ (a &&& c) ^^^ (b &&& c)

/-- The 64 SHA-256 round constants of FIPS 180-4 §4.2.2, written in decimal;
the test vectors below confirm them. -/
def sha256K : List Nat :=
  [1116352408, 1899447441, 3049323471, 3921009573, 961987163, 1508970993,
   2453635748, 2870763221, 3624381080, 310598401, 607225278, 1426881987,
   1925078388, 2162078206, 2614888103, 3248222580, 3835390401, 4022224774,
   264347078, 604807628, 770255983, 1249150122, 1555081692, 1996064986,
   2554220882, 2821834349, 2952996808, 3210313671, 3336571891, 3584528711,
   113926993, 338241895, 666307205, 773529912, 1294757372, 1396182291,
   1695183700, 1986661051, 2177026350, 2456956037, 2730485921, 2820302411,
   3259730800, 3345764771, 3516065817, 3600352804, 4094571909, 275423344,
   430227734, 506948616, 659060556, 883997877, 958139571, 1322822218,
   1537002063, 1747873779, 1955562222, 2024104815, 2227730452, 2361852424,
   2428436474, 2756734187, 3204031479, 3329325298]

/-- The SHA-256 initial hash value of FIPS 180-4 §5.3.3, in decimal. -/
def sha256H0 : List Nat :=
  [1779033703, 3144134277, 1013904242, 2773480762,
   1359893119, 2600822924, 528734635, 1541459225]

/-- Extend a 16-word block to the 64-word message schedule. -/
def buildW (w16 : List Nat) : List Nat :=
  (List.range 48).foldl
    (fun w i =>
      let t := i + 16
      w ++ [add32 (add32 (smallSigma1 (w.getD (t-2) 0)) (w.getD (t-7) 0))
                  (add32 (smallSigma0 (w.getD (t-15) 0)) (w.getD (t-16) 0))])
    w16

/-- One SHA-256 compression step: fold a 16-word block into the 8-word state. -/
def sha256Compress (h : List Nat) (block : List Nat) : List Nat :=
  let w := buildW block
  let s :=
    (List.range 64).foldl
      (fun st i =>
        match st with
        | (a, b, c, d, e, f, g, hh) =>
          let t1 := add32 (add32 (add32 hh (bigSigma1 e))
                                 (add32 (chFn e f g) (sha256K.getD i 0))) (w.getD i 0)
          let t2 := add32 (bigSigma0 a) (majFn a b c)
          (add32 t1 t2, a, b, c, add32 d t1, e, f, g))
      (h.getD 0 0, h.getD 1 0, h.getD 2 0, h.getD 3 0,
       h.getD 4 0, h.getD 5 0, h.getD 6 0, h.getD 7 0)
  match s with
  | (a, b, c, d, e, f, g, hh) =>
    [add32 (h.getD 0 0) a, add32 (h.getD 1 0) b, add32 (h.getD 2 0) c, add32 (h.getD 3 0) d,
     add32 (h.getD 4 0) e, add32 (h.getD 5 0) f, add32 (h.getD 6 0) g, add32 (h.getD 7 0) hh]

/-- Big-endian grouping of bytes into 32-bit words (trailing fragment dropped;
the padded message length is always a multiple of 4). -/
def bytesToWords : List Nat → List Nat
  | b0 :: b1 :: b2 :: b3 :: rest =>
    ((((b0 <<< 8) ||| b1) <<< 8 ||| b2) <<< 8 ||| b3) :: bytesToWords rest
  | _ => []

/-- Fold all 16-word blocks of the padded message into the hash state. -/
def sha256Blocks (h : List Nat) : List Nat → List Nat
  | w0 :: w1 :: w2 :: w3 :: w4 :: w5 :: w6 :: w7 ::
    w8 :: w9 :: w10 :: w11 :: w12 :: w13 :: w14 :: w15 :: rest =>
    sha256Blocks
      (sha256Compress h [w0, w1, w2, w3, w4, w5, w6, w7, w8, w9, w10, w11, w12, w13, w14, w15])
      rest
  | _ => h

/-- SHA-256 padding: append 0x80, zeros, and the 64-bit big-endian bit length. -/
def sha256Pad (msg : List Nat) : List Nat :=
  let len := msg.length
  let k := (119 - len % 64) % 64
  let bits := len * 8
  msg ++ [0x80] ++ List.replicate k 0 ++
    [(bits >>> 56) &&& 0xFF, (bits >>> 48) &&& 0xFF, (bits >>> 40) &&& 0xFF, (bits >>> 32) &&& 0xFF,
     (bits >>> 24) &&& 0xFF, (bits >>> 16) &&& 0xFF, (bits >>> 8) &&& 0xFF, bits &&& 0xFF]

/-- Serialize a 32-bit word to 4 big-endian bytes. -/
def wordToBytes (w : Nat) : List Nat :=
  [(w >>> 24) &&& 0xFF, (w >>> 16) &&& 0xFF, (w >>> 8) &&& 0xFF, w &&& 0xFF]

/-- SHA-256 of a byte string, as its 32 digest bytes (`hashlib.sha256(m).digest()`). -/
def sha256 (msg : List Nat) : List Nat :=
  (sha256Blocks sha256H0 (bytesToWords (sha256Pad msg))).foldr
    (fun w acc => wordToBytes w ++ acc) []

/-- HMAC-SHA256 (RFC 2104), the digest `hmac.new(key, msg, hashlib.sha256)` computes:
long keys are hashed, keys are zero-padded to the 64-byte block, and the inner
and outer hashes use the 0x36/0x5c pads. -/
def hmacSha256 (key msg : List Nat) : List Nat :=
  let k0 := if key.length > 64 then sha256 key else key
  let kp := k0 ++ List.replicate (64 - k0.length) 0
  let ipad := kp.map (fun b => b ^^^ 0x36)
  let opad := kp.map (fun b => b ^^^ 0x5c)
  sha256 (opad ++ sha256 (ipad ++ msg))

/-- Lower-case hex digit for a value below 16 (`0123456789abcdef`). -/
def hexDigitChar (n : Nat) : Char :=
  if n < 10 then Char.ofNat (48 + n) else Char.ofNat (87 + n)

/-- Two lower-case hex characters for one byte. -/
def byteToHex (b : Nat) : List Char :=
  [hexDigitChar ((b >>> 4) &&& 0xF), hexDigitChar (b &&& 0xF)]

/-- Lower-case hex string of a byte string; this is Python's `.hexdigest()`
applied to a digest. -/
def hexDigest (bs : List Nat) : String :=
  String.mk (bs.foldr (fun b acc => byteToHex b ++ acc) [])

/-- UTF-8 encoding of one code point. -/
def utf8Bytes (c : Nat) : List Nat :=
  if c < 0x80 then [c]
  else if c < 0x800 then [0xC0 ||| (c >>> 6), 0x80 ||| (c &&& 0x3F)]
  else if c < 0x10000 then
    [0xE0 ||| (c >>> 12), 0x80 ||| ((c >>> 6) &&& 0x3F), 0x80 ||| (c &&& 0x3F)]
  else
    [0xF0 ||| (c >>> 18), 0x80 ||| ((c >>> 12) &&& 0x3F), 0x80 ||| ((c >>> 6) &&& 0x3F),
     0x80 ||| (c &&& 0x3F)]

/-- UTF-8 bytes of a string (`s.encode('utf-8')`). -/
def strBytes (s : String) : List Nat :=
  s.data.foldr (fun c acc => utf8Bytes c.toNat ++ acc) []

set_option maxRecDepth 200000 in
/-- Sanity check of the SHA-256 embedding against the FIPS 180-4 vector for
the message `abc`. -/
theorem sha256_fips_vector :
    hexDigest (sha256 (strBytes "abc")) =
      "ba7816bf8f01cfea414140de5dae2223b00361a396177a9cb410ff61f20015ad" := by decide

set_option maxRecDepth 200000 in
/-- Sanity check of the HMAC-SHA256 embedding against RFC 4231 test case 2. -/
theorem hmac_rfc4231_vector :
    hexDigest (hmacSha256 (strBytes "Jefe") (strBytes "what do ya want for nothing?")) =
      "5bdcc146bf60754e6a042426089575c75a003f089d2739839dec58b964ec3843" := by decide

/-! ## Shared helpers -/

/-- Python `abs` on a real quantity; the sources only apply it to second
offsets, embedded as rationals. -/
def pyAbs (q : ℚ) : ℚ := if q < 0 then -q else q

/-- Truthiness of an optional string header: `headers.get(k)` is falsy when
the header is absent or the empty string. -/
def truthy (o : Option String) : Bool := !(o.getD "" == "")

/-- UTF-8 encoding distributes over string concatenation: the bytes signed for
a concatenated message are exactly the concatenation of the parts' bytes (no
re-serialization happens between receiving and signing). -/
theorem strBytes_append (a b : String) : strBytes (a ++ b) = strBytes a ++ strBytes b := by
  have key : ∀ l₁ l₂ : List Char,
      (l₁ ++ l₂).foldr (fun c acc => utf8Bytes c.toNat ++ acc) [] =
        l₁.foldr (fun c acc => utf8Bytes c.toNat ++ acc) []
          ++ l₂.foldr (fun c acc => utf8Bytes c.toNat ++ acc) [] := by
    intro l₁ l₂
    induction l₁ with
    | nil => simp
    | cons c cs ih => simp [ih, List.append_assoc]
  show (a ++ b).data.foldr (fun c acc => utf8Bytes c.toNat ++ acc) [] = _
  rw [String.data_append, key]
  rfl

/-! ## The optimized HMAC authorizer

Embedding of `src/lambdas/optimized-hmac-authorizer.py`.  External
collaborators are passed in explicitly: the metrics sink as
`emit : String → Except Unit Unit` (keyed by metric name; `add_metric` may
raise), the ISO-8601 parser `datetime.fromisoformat` as
`parseIso : String → Option ℚ` (seconds since the epoch, `none` on
`ValueError`/`TypeError`), and Secrets Manager as
`store : SecretVersion → Except StoreErr String`.  The per-tenant in-memory
failure list `self.failed_attempts[f"failed_{tenant_id}"]` is threaded as a
`List ℚ` of failure times (an absent dict key behaves exactly like the empty
list in every read).  The secret cache is a read-only `Option String` input;
writes to it do not affect any decision in this request and are not tracked.
-/

namespace Optimized

/-- TIMESTAMP_TOLERANCE_SECONDS. -/
def TIMESTAMP_TOLERANCE_SECONDS : ℚ := 300

/-- MAX_FAILED_ATTEMPTS. -/
def MAX_FAILED_ATTEMPTS : Nat := 10

/-- A Secrets Manager version stage: AWSCURRENT or AWSPENDING. -/
inductive SecretVersion where
  | current
  | pending
deriving DecidableEq

/-- How a `get_secret_value` call fails: `ResourceNotFoundException`, or any
other exception (timeouts, throttling, a malformed SecretString, ...). -/
inductive StoreErr where
  | notFound
  | other
deriving DecidableEq

/-- The dict `_validation_result` builds: an `isAuthorized` boolean and the
message (the context map carries no information the claims touch). -/
structure ValidationResult where
  isAuthorized : Bool
  message : String
deriving DecidableEq, Repr

/-- Embeds `_validate_timestamp`: parse the header (a parse failure is caught
and yields False) and accept when the absolute age is at most the tolerance. -/
def validateTimestamp (parseIso : String → Option ℚ) (now : ℚ) (timestamp : String) : Bool :=
  match parseIso timestamp with
  | none => false
  | some t => pyAbs (now - t) ≤ TIMESTAMP_TOLERANCE_SECONDS

/-- Embeds `_get_tenant_secret`: cache hit returns immediately; otherwise the
AWSCURRENT version is fetched, a `ResourceNotFoundException` yields None, and
any other failure falls back to one AWSPENDING attempt whose own failure
yields None. -/
def getTenantSecret (store : SecretVersion → Except StoreErr String)
    (cache : Option String) : Option String :=
  match cache with
  | some s => some s
  | none =>
    match store .current with
    | .ok s => some s
    | .error .notFound => none
    | .error .other =>
      match store .pending with
      | .ok s => some s
      | .error _ => none

/-- Embeds `_validate_hmac_signature`: the message is the timestamp, a newline
and the body, exactly as received; the expected signature is the lower-case
hex digest of HMAC-SHA256 over the UTF-8 bytes; `hmac.compare_digest` is
string equality (its constant-time execution has no functional content). -/
def validateHmacSignature (timestamp body signature secret : String) : Bool :=
  let message := timestamp ++ "\n" ++ body
  let expected := hexDigest (hmacSha256 (strBytes secret) (strBytes message))
  expected == signature

/-- Embeds `_is_rate_limited`: prune entries at or before `now - 3600`, then
compare the surviving count against MAX_FAILED_ATTEMPTS.  Returns the decision
together with the pruned list (the prune mutates the dict). -/
def isRateLimited (now : ℚ) (failed : List ℚ) : Bool × List ℚ :=
  let pruned := failed.filter (fun t => now - 3600 < t)
  (decide (pruned.length ≥ MAX_FAILED_ATTEMPTS), pruned)

/-- Embeds `_record_failed_attempt`: append the current time. -/
def recordFailedAttempt (now : ℚ) (failed : List ℚ) : List ℚ := failed ++ [now]

/-- The body of `validate_request`'s try block.  Each `metrics.add_metric`
call is an `emit` that may raise; a raise aborts with the state reached so
far (mutations made before it persist).  Branch order is the source's:
missing headers, failed-attempt rate limit, timestamp, secret, signature. -/
def validateRequestTry (emit : String → Except Unit Unit) (parseIso : String → Option ℚ)
    (store : SecretVersion → Except StoreErr String) (cache : Option String) (now : ℚ)
    (tenantId : String) (tsHdr sigHdr : Option String) (body : String)
    (failed : List ℚ) : Except Unit ValidationResult × List ℚ :=
  if tenantId != "" && truthy tsHdr && truthy sigHdr then
    let timestamp := tsHdr.getD ""
    let signature := sigHdr.getD ""
    match isRateLimited now failed with
    | (true, failed1) =>
      match emit "RateLimited" with
      | .error e => (.error e, failed1)
      | .ok _ => (.ok ⟨false, "Rate limit exceeded"⟩, failed1)
    | (false, failed1) =>
      if !(validateTimestamp parseIso now timestamp) then
        let failed2 := recordFailedAttempt now failed1
        match emit "InvalidTimestamp" with
        | .error e => (.error e, failed2)
        | .ok _ => (.ok ⟨false, "Invalid timestamp"⟩, failed2)
      else
        match getTenantSecret store cache with
        | none =>
          let failed2 := recordFailedAttempt now failed1
          match emit "InvalidTenant" with
          | .error e => (.error e, failed2)
          | .ok _ => (.ok ⟨false, "Invalid tenant"⟩, failed2)
        | some secret =>
          if !(validateHmacSignature timestamp body signature secret) then
            let failed2 := recordFailedAttempt now failed1
            match emit "InvalidSignature" with
            | .error e => (.error e, failed2)
            | .ok _ => (.ok ⟨false, "Invalid signature"⟩, failed2)
          else
            match emit "ValidationDuration" with
            | .error e => (.error e, failed1)
            | .ok _ =>
              match emit "SuccessfulValidations" with
              | .error e => (.error e, failed1)
              | .ok _ => (.ok ⟨true, "Valid request"⟩, failed1)
  else
    match emit "MissingHeaders" with
    | .error e => (.error e, failed)
    | .ok _ => (.ok ⟨false, "Missing required headers"⟩, failed)

/-- Embeds `validate_request`: the try body wrapped by `except Exception`,
which turns any raise into the Internal-validation-error deny result. -/
def validateRequest (emit : String → Except Unit Unit) (parseIso : String → Option ℚ)
    (store : SecretVersion → Except StoreErr String) (cache : Option String) (now : ℚ)
    (tenantId : String) (tsHdr sigHdr : Option String) (body : String)
    (failed : List ℚ) : ValidationResult × List ℚ :=
  match validateRequestTry emit parseIso store cache now tenantId tsHdr sigHdr body failed with
  | (.ok r, st) => (r, st)
  | (.error _, st) => (⟨false, "Internal validation error"⟩, st)

/-- The IAM policy `lambda_handler` returns: effect, principal and (for a
deny) the error string placed in the context. -/
structure Policy where
  effect : String
  principalId : String
  contextError : Option String
deriving DecidableEq, Repr

/-- Embeds `generate_deny_policy`. -/
def generateDenyPolicy (reason : String) : Policy :=
  ⟨"Deny", "unauthorized", some reason⟩

/-- Embeds `generate_allow_policy`. -/
def generateAllowPolicy (tenantId : String) : Policy :=
  ⟨"Allow", tenantId, none⟩

/-- Embeds `lambda_handler`: extract the tenant header, call the validator
(an external call that may raise, abstracted as `validate`), map the result
to an allow or deny policy; the outer `except Exception` maps any raise to
the Internal-error deny policy. -/
def lambdaHandler (validate : Unit → Except Unit ValidationResult)
    (tenantHdr : Option String) : Policy :=
  if !(truthy tenantHdr) then generateDenyPolicy "Missing tenant ID"
  else
    match validate () with
    | .error _ => generateDenyPolicy "Internal error"
    | .ok r =>
      if r.isAuthorized then generateAllowPolicy (tenantHdr.getD "")
      else generateDenyPolicy r.message

end Optimized

/-! ## The ultra-simple single-function handler

Embedding of `src/ultra-simple/handler.py`.  The HMAC secret is the
`HMAC_SECRET` environment value, passed explicitly.  The `x-timestamp`
header is a Unix-seconds decimal string parsed with `float(...)`; the
embedded `pyFloat` covers the decimal literals `[sign] digits [. digits]`
(the only forms the handler's clients send; `float` accepts a few more
spellings, all irrelevant here) and returns `none` exactly where `float`
raises on such strings.
-/

namespace UltraSimple

/-- MAX_PAYLOAD_SIZE = 256 * 1024. -/
def MAX_PAYLOAD_SIZE : Nat := 262144

/-- Numeric value of a digit list. -/
def natOfDigits (l : List Char) : Nat :=
  l.foldl (fun n c => n * 10 + (c.toNat - 48)) 0

/-- Parse an unsigned decimal literal: digits with an optional point, at
least one digit present. -/
def parseUnsignedDecimal (cs : List Char) : Option ℚ :=
  let intPart := cs.takeWhile Char.isDigit
  let rest := cs.dropWhile Char.isDigit
  match rest with
  | [] => if intPart.isEmpty then none else some (natOfDigits intPart)
  | '.' :: frac =>
    if frac.all Char.isDigit && !(intPart.isEmpty && frac.isEmpty) then
      some ((natOfDigits intPart : ℚ) + (natOfDigits frac : ℚ) / (10 ^ frac.length))
    else none
  | _ => none

/-- Python `float(s)` on decimal literals, `none` where it raises ValueError. -/
def pyFloat (s : String) : Option ℚ :=
  match s.data with
  | '-' :: cs => (parseUnsignedDecimal cs).map (fun q => -q)
  | '+' :: cs => parseUnsignedDecimal cs
  | cs => parseUnsignedDecimal cs

/-- Python `str.lower()` restricted to ASCII (the signatures it is applied to
are hex and ASCII; the unicode case mappings never arise). -/
def pyLower (s : String) : String :=
  String.mk (s.data.map (fun c =>
    if 65 ≤ c.toNat ∧ c.toNat ≤ 90 then Char.ofNat (c.toNat + 32) else c))

/-- Embeds `validate_hmac`: lower-case the supplied signature, require both
headers truthy, parse the timestamp as a float (a parse failure is caught and
yields False), reject when the absolute age exceeds 300 seconds, and compare
against the lower-cased hex HMAC-SHA256 of `timestamp ++ ":" ++ body`
built from the raw body string. -/
def validateHmac (secret : String) (now : ℚ) (sigHdr tsHdr : Option String)
    (bodyStr : String) : Bool :=
  let signature := pyLower (sigHdr.getD "")
  let timestamp := tsHdr.getD ""
  if signature == "" || timestamp == "" then false
  else
    match pyFloat timestamp with
    | none => false
    | some t =>
      if pyAbs (now - t) > 300 then false
      else
        let message := timestamp ++ ":" ++ bodyStr
        let expected := pyLower (hexDigest (hmacSha256 (strBytes secret) (strBytes message)))
        signature == expected

/-- Python `str.strip()` whitespace, restricted to ASCII (the handler's
clients send ASCII bodies; the unicode spaces Python also strips do not
occur in any claim). -/
def pyIsSpace (c : Char) : Bool :=
  [' ', '\t', '\n', '\r', '\x0b', '\x0c'].contains c

/-- Whether `body_str.strip()` is empty: every character is whitespace. -/
def stripIsEmpty (s : String) : Bool := s.data.all pyIsSpace

/-- Embeds `lambda_handler` of the ultra-simple handler.  The response is its
status code paired with the list of DynamoDB writes performed ("submission"
per successful `put_item`).  External outcomes are explicit: `jsonOk` is
whether `json.loads(body_str)` succeeds, `formOrMeta` whether the parsed body
carries a non-empty `form_data` or `metadata`, and `storeOk` whether the
`put_item` call succeeds (a failed put raises, is caught, and no write
lands).  Branch order is the source's: OPTIONS, non-POST, size, emptiness,
JSON, HMAC, submission processing. -/
def lambdaHandler (secret : String) (now : ℚ) (method : String)
    (sigHdr tsHdr : Option String) (bodyStr : String)
    (jsonOk formOrMeta storeOk : Bool) : Nat × List String :=
  if method == "OPTIONS" then (200, [])
  else if method != "POST" then (405, [])
  else
    if bodyStr.length > MAX_PAYLOAD_SIZE then (413, [])
    else if stripIsEmpty bodyStr then (400, [])
    else if !jsonOk then (400, [])
    else if !(validateHmac secret now sigHdr tsHdr bodyStr) then (401, [])
    else
      if !formOrMeta then (500, [])
      else if storeOk then (200, ["submission"])
      else (500, [])

end UltraSimple

/-! ## DynamoDB-backed rate limiting

Embedding of `RateLimiter.check_rate_limit` from
`src/lambdas/wp-plugin-auth/shared_utils.py` and `_check_rate_limits` from
`src/lambdas/wp-plugin-auth/authentication.py`.  The DynamoDB count query for
a window is abstracted as `q : String → Except Unit Nat` (a raise anywhere in
the loop aborts it and is caught by the surrounding `except`, which returns
the allowed result — the explicit fail-open policy).  A `limits` dict is an
association list in its insertion order, which is the order `for ... in
limits.items()` iterates.
-/

namespace RateLimiting

/-- Result dict of a rate-limit check: allowed, or denied naming the window
together with the current count and the limit. -/
inductive RLResult where
  | allowed
  | denied (window : String) (count : Nat) (limit : Nat)
deriving DecidableEq, Repr

/-- The query loop shared by both sources: count each window in order and
stop at the first whose count reaches its limit; a raised query aborts the
loop with the exception. -/
def checkWindows (q : String → Except Unit Nat) : List (String × Nat) → Except Unit RLResult
  | [] => .ok .allowed
  | (w, lim) :: rest =>
    match q w with
    | .error e => .error e
    | .ok count => if count ≥ lim then .ok (.denied w count lim) else checkWindows q rest

/-- Embeds `RateLimiter.check_rate_limit` of shared_utils: run the window
loop over the caller's limits dict; any exception is caught and the check
fails open. -/
def check_rate_limit (q : String → Except Unit Nat) (limits : List (String × Nat)) : RLResult :=
  match checkWindows q limits with
  | .ok r => r
  | .error _ => .allowed

/-- RATE_LIMITS of authentication.py, in dict insertion order: the minute
window, then the hour window, then the day window. -/
def wpWindows : List (String × Nat) := [("minute", 100), ("hour", 2000), ("day", 10000)]

/-- Embeds `_check_rate_limits` of authentication.py: the same loop over its
fixed minute/hour/day windows, failing open on any exception. -/
def checkRateLimits (q : String → Except Unit Nat) : RLResult :=
  match checkWindows q wpWindows with
  | .ok r => r
  | .error _ => .allowed

end RateLimiting

/-! ## The wordpress-auth security implementation

Embedding of `validate_secure_credentials` and its helpers from
`src/docs/examples/wordpress-auth/security-implementation.py`.  External
crypto is explicit: `hash512` models `hashlib.sha512(...).hexdigest()` (its
value is only ever compared for equality) and `decrypt` models
`decrypt_sensitive_data`, raising on failure.  The DynamoDB credential item
is a `Credential`; the functions return the updated item next to the result.
A raised exception is the deny outcome (`Except.error` with the message).
The counter item that `_increment_failed_attempts` would create when no
credential record exists at all is outside the model (no claim touches it).
-/

namespace SecurityImpl

/-- The credential item at SITE#domain / KEY#current, restricted to the
fields `validate_secure_credentials` reads or writes. -/
structure Credential where
  key_id : String
  encrypted_secret : String
  secure_hash : String
  account_id : String
  failed_attempts : Nat
  locked_until : Option ℚ
  expires_at : ℚ
  status : String
deriving DecidableEq, Repr

/-- Embeds `create_secure_hash`: the sha512 hex digest of
secret, site domain and key id joined by colons. -/
def createSecureHash (hash512 : String → String) (secret siteDomain keyId : String) : String :=
  hash512 (secret ++ ":" ++ siteDomain ++ ":" ++ keyId)

/-- Embeds `_increment_failed_attempts`: add one failure; at 10 or more the
item is locked until now plus the lockout duration and its status becomes
temporarily_locked. -/
def incrementFailedAttempts (lockoutMinutes : ℚ) (now : ℚ) (c : Credential) : Credential :=
  let bumped := { c with failed_attempts := c.failed_attempts + 1 }
  if bumped.failed_attempts ≥ 10 then
    { bumped with locked_until := some (now + lockoutMinutes * 60), status := "temporarily_locked" }
  else bumped

/-- Embeds `_update_successful_auth`: a successful validation writes
`failed_attempts = 0` back to the item. -/
def updateSuccessfulAuth (c : Credential) : Credential :=
  { c with failed_attempts := 0 }

/-- The part of `validate_secure_credentials` after the lockout check: the
inner try decrypts and compares; note that the `raise` on a credential
mismatch is itself caught by the inner `except`, so a mismatch increments
the failure count twice (once in the `if`, once in the handler) and
surfaces as the handler's message.  Then expiry and status are checked and
a success resets the failure count. -/
def validateAfterLockCheck (hash512 : String → String) (decrypt : String → Except Unit String)
    (lockoutMinutes : ℚ) (now : ℚ) (keyId secret siteDomain : String)
    (c : Credential) : Except String String × Credential :=
  match decrypt c.encrypted_secret with
  | .error _ =>
    (.error "Credential validation failed", incrementFailedAttempts lockoutMinutes now c)
  | .ok decrypted =>
    if c.key_id != keyId
        || c.secure_hash != createSecureHash hash512 decrypted siteDomain keyId
        || decrypted != secret then
      (.error "Credential validation failed",
       incrementFailedAttempts lockoutMinutes now (incrementFailedAttempts lockoutMinutes now c))
    else if c.expires_at < now then (.error "Credentials expired", c)
    else if c.status != "active" then (.error "Credentials inactive", c)
    else (.ok c.account_id, updateSuccessfulAuth c)

/-- Embeds `validate_secure_credentials`: enhanced rate limit first (its
outcome abstracted as `rateOk`), then the credential fetch, then the
`locked_until` check — strictly before any secret material is decrypted or
compared — then the credential checks. -/
def validateSecureCredentials (hash512 : String → String) (decrypt : String → Except Unit String)
    (lockoutMinutes : ℚ) (rateOk : Bool) (cred : Option Credential) (now : ℚ)
    (keyId secret siteDomain : String) : Except String String × Option Credential :=
  if !rateOk then (.error "Rate limit exceeded", cred)
  else
    match cred with
    | none => (.error "Invalid credentials", none)
    | some c =>
      match c.locked_until with
      | some lockTime =>
        if lockTime > now then
          (.error "Account temporarily locked due to security violations", some c)
        else
          let rc := validateAfterLockCheck hash512 decrypt lockoutMinutes now keyId secret siteDomain c
          (rc.1, some rc.2)
      | none =>
        let rc := validateAfterLockCheck hash512 decrypt lockoutMinutes now keyId secret siteDomain c
        (rc.1, some rc.2)

end SecurityImpl

/-! ## The optional dedup layer -/

namespace Dedup

/-- Modelled from the spec: the repository ships no production dedup layer —
the (tenant_id, timestamp, signature) replay tracker appears only in the unit
tests (`src/tests/unit/test_hmac_validation.py`), which check the tuple
against a seen-set before validating and record it at check time.  Per the
spec's ReplayGuard, the optional dedup layer records the
(tenant_id, timestamp, signature) tuples seen within the tolerance window
and rejects an exact repeat as a replay even though the signature itself is
valid.  The layer wraps the optimized validator: with dedup enabled, a tuple
already seen is denied as a DuplicateRequest before any other work; an unseen
tuple is recorded and the request validated as usual. -/
def validateWithDedup (dedupEnabled : Bool) (seen : List (String × String × String))
    (emit : String → Except Unit Unit) (parseIso : String → Option ℚ)
    (store : Optimized.SecretVersion → Except Optimized.StoreErr String)
    (cache : Option String) (now : ℚ) (tenantId : String) (tsHdr sigHdr : Option String)
    (body : String) (failed : List ℚ) :
    Optimized.ValidationResult × List (String × String × String) × List ℚ :=
  let key := (tenantId, tsHdr.getD "", sigHdr.getD "")
  if dedupEnabled then
    if key ∈ seen then (⟨false, "DuplicateRequest"⟩, seen, failed)
    else
      let rs := Optimized.validateRequest emit parseIso store cache now tenantId tsHdr sigHdr body failed
      (rs.1, seen ++ [key], rs.2)
  else
    let rs := Optimized.validateRequest emit parseIso store cache now tenantId tsHdr sigHdr body failed
    (rs.1, seen, rs.2)

end Dedup

section ClaimTheorems

/- Batteries marks the rational-arithmetic kernels irreducible, which blocks
the decide tactic's evaluator on concrete second offsets; the kernel itself
reduces them fine.  Restore default transparency locally for the proofs. -/
attribute [local semireducible] Rat.sub Rat.add Rat.mul Rat.inv

/-! ## Claim C4: the replay-tolerance boundary -/

/-- Claim C4, as stated, is false on the code: it says the replay check
accepts exactly when the absolute offset is strictly below the 300-second
tolerance, so an offset of exactly 300.0 s would be rejected; but
`_validate_timestamp` tests `age_seconds <= TIMESTAMP_TOLERANCE_SECONDS`,
so a timestamp exactly 300 s old is accepted. -/
theorem timestamp_tolerance_counterexample :
    Optimized.validateTimestamp (fun _ => some 0) 300 "1970-01-01T00:00:00+00:00" = true
      ∧ ¬ pyAbs ((300 : ℚ) - 0) < 300 := by
  constructor
  · decide
  · decide

/-- Claim C4 (amended): both variants use a closed outer boundary.  The
optimized authorizer's replay check accepts a parseable timestamp exactly
when the absolute offset from now is at most 300 seconds (so exactly 300.0 s
is accepted and anything strictly beyond is rejected) and rejects an
unparseable timestamp.  The ultra-simple handler's freshness guard rejects
any request whose timestamp offset strictly exceeds 300 seconds, and for any
offset up to and including exactly 300 seconds it does not reject: with the
headers present and a signature that (after lower-casing) matches the
colon-message digest, validation succeeds. -/
theorem timestamp_tolerance_closed_boundary :
    (∀ (parseIso : String → Option ℚ) (now : ℚ) (ts : String) (t : ℚ),
        parseIso ts = some t →
          (Optimized.validateTimestamp parseIso now ts = true ↔ pyAbs (now - t) ≤ 300))
      ∧ (∀ (parseIso : String → Option ℚ) (now : ℚ) (ts : String),
          parseIso ts = none → Optimized.validateTimestamp parseIso now ts = false)
      ∧ (∀ (secret : String) (now : ℚ) (sigHdr tsHdr : Option String) (body : String) (t : ℚ),
          UltraSimple.pyFloat (tsHdr.getD "") = some t → pyAbs (now - t) > 300 →
            UltraSimple.validateHmac secret now sigHdr tsHdr body = false)
      ∧ (∀ (secret : String) (now : ℚ) (sigHdr tsHdr : Option String) (body : String) (t : ℚ),
          UltraSimple.pyFloat (tsHdr.getD "") = some t →
          ¬ pyAbs (now - t) > 300 →
          (UltraSimple.pyLower (sigHdr.getD "") == "") = false →
          ((tsHdr.getD "") == "") = false →
          UltraSimple.pyLower (sigHdr.getD "") =
            UltraSimple.pyLower (hexDigest (hmacSha256 (strBytes secret)
              (strBytes ((tsHdr.getD "") ++ ":" ++ body)))) →
            UltraSimple.validateHmac secret now sigHdr tsHdr body = true) := by
  refine ⟨?_, ?_, ?_, ?_⟩
  · intro parseIso now ts t hp
    simp [Optimized.validateTimestamp, hp, Optimized.TIMESTAMP_TOLERANCE_SECONDS]
  · intro parseIso now ts hp
    simp [Optimized.validateTimestamp, hp]
  · intro secret now sigHdr tsHdr body t hp hage
    unfold UltraSimple.validateHmac
    by_cases hempty : (UltraSimple.pyLower (sigHdr.getD "") == "" || (tsHdr.getD "") == "") = true
    · simp [hempty]
    · simp only [hempty, if_false, hp]
      simp [hage, le_of_lt]
  · intro secret now sigHdr tsHdr body t hp hage hsig hts hmatch
    simp only [UltraSimple.validateHmac, hp, hsig, hts, Bool.or_self, Bool.false_eq_true,
      if_false]
    rw [if_neg hage, hmatch]
    simp

set_option maxRecDepth 2000000 in
set_option maxHeartbeats 2000000 in
/-- Witness for the amended C4 theorem at concrete inputs: a timestamp
exactly at the 300-second boundary is accepted by the optimized check; the
ultra-simple handler rejects one 301 seconds old regardless of its
signature, and accepts a correctly colon-signed request whose timestamp is
exactly 300 seconds old. -/
theorem timestamp_tolerance_closed_boundary_witness :
    Optimized.validateTimestamp (fun _ => some 0) 300 "1970-01-01T00:00:00+00:00" = true
      ∧ UltraSimple.validateHmac "secret" 301 (some "aa") (some "0") "body" = false
      ∧ UltraSimple.validateHmac "secret" 300
          (some (hexDigest (hmacSha256 (strBytes "secret") (strBytes ("0" ++ ":" ++ "body")))))
          (some "0") "body" = true := by
  refine ⟨?_, ?_, ?_⟩
  · exact (timestamp_tolerance_closed_boundary.1 (fun _ => some 0) 300
      "1970-01-01T00:00:00+00:00" 0 rfl).mpr (by decide)
  · exact timestamp_tolerance_closed_boundary.2.2.1 "secret" 301 (some "aa") (some "0") "body" 0
      (by decide) (by decide)
  · exact timestamp_tolerance_closed_boundary.2.2.2 "secret" 300
      (some (hexDigest (hmacSha256 (strBytes "secret") (strBytes ("0" ++ ":" ++ "body")))))
      (some "0") "body" 0 (by decide) (by decide) (by decide) (by decide) rfl

/-! ## Claim C6: the rate limiter fails open -/

/-- Claim C6: when the counter store raises during the window loop, both
rate-limit implementations catch the exception and return the allowed
result — they fail open rather than denying. -/
theorem rate_limit_fails_open
    (q : String → Except Unit Nat) (limits : List (String × Nat))
    (hshared : ∃ e, RateLimiting.checkWindows q limits = .error e)
    (hwp : ∃ e, RateLimiting.checkWindows q RateLimiting.wpWindows = .error e) :
    RateLimiting.check_rate_limit q limits = .allowed
      ∧ RateLimiting.checkRateLimits q = .allowed := by
  obtain ⟨e1, h1⟩ := hshared
  obtain ⟨e2, h2⟩ := hwp
  constructor
  · unfold RateLimiting.check_rate_limit
    rw [h1]
  · unfold RateLimiting.checkRateLimits
    rw [h2]

/-- Witness for C6: a store whose every query raises makes both checks
return allowed. -/
theorem rate_limit_fails_open_witness :
    RateLimiting.check_rate_limit (fun _ => .error ()) [("minute", 60)] = .allowed
      ∧ RateLimiting.checkRateLimits (fun _ => .error ()) = .allowed :=
  rate_limit_fails_open (fun _ => .error ()) [("minute", 60)]
    ⟨(), rfl⟩ ⟨(), rfl⟩

/-! ## Claim C7: window evaluation order and first violation -/

/-- On an error-free store the window loop returns exactly the first listed
window whose count reaches its limit. -/
theorem checkWindows_ok_eq_find (c : String → Nat) (limits : List (String × Nat)) :
    RateLimiting.checkWindows (fun w => .ok (c w)) limits =
      .ok (match limits.find? (fun p => decide (c p.1 ≥ p.2)) with
           | some p => .denied p.1 (c p.1) p.2
           | none => .allowed) := by
  induction limits with
  | nil => rfl
  | cons p rest ih =>
    obtain ⟨w, lim⟩ := p
    by_cases h : c w ≥ lim
    · simp [RateLimiting.checkWindows, List.find?, h]
    · simp [RateLimiting.checkWindows, List.find?, h, ih]

/-- Claim C7: with the counter store answering every query, the wp-plugin
rate-limit check evaluates its windows in the fixed ascending order minute,
hour, day (the `wpWindows` list) and returns the denial naming the first
window whose current count is at least its limit, with that window's count
and limit; when no window reaches its limit it returns allowed.  The generic
shared_utils check does the same over any caller-supplied limits list in its
given order. -/
theorem rate_limit_first_violating_window (c : String → Nat) :
    (RateLimiting.checkRateLimits (fun w => .ok (c w)) =
        match RateLimiting.wpWindows.find? (fun p => decide (c p.1 ≥ p.2)) with
        | some p => .denied p.1 (c p.1) p.2
        | none => .allowed)
      ∧ RateLimiting.wpWindows = [("minute", 100), ("hour", 2000), ("day", 10000)]
      ∧ (∀ limits : List (String × Nat),
          RateLimiting.check_rate_limit (fun w => .ok (c w)) limits =
            match limits.find? (fun p => decide (c p.1 ≥ p.2)) with
            | some p => .denied p.1 (c p.1) p.2
            | none => .allowed) := by
  refine ⟨?_, rfl, ?_⟩
  · unfold RateLimiting.checkRateLimits
    rw [checkWindows_ok_eq_find]
  · intro limits
    unfold RateLimiting.check_rate_limit
    rw [checkWindows_ok_eq_find]

/-! ## Claim C2: an active lockout supersedes every other check -/

/-- Helper: when the required headers are present and the failure list holds
at least MAX_FAILED_ATTEMPTS entries inside the last hour, `validate_request`
resolves entirely from the rate-limit branch: the only remaining effect is
the RateLimited metric emission, and the result is the rate-limit deny (or
the internal-error deny if the emission itself raises). -/
theorem validateRequest_lockedOut (emit : String → Except Unit Unit)
    (parseIso : String → Option ℚ) (store : Optimized.SecretVersion → Except Optimized.StoreErr String)
    (cache : Option String) (now : ℚ) (tenantId : String) (tsHdr sigHdr : Option String)
    (body : String) (failed : List ℚ)
    (htid : (tenantId != "") = true) (hts : truthy tsHdr = true) (hsig : truthy sigHdr = true)
    (hlim : (failed.filter (fun t => now - 3600 < t)).length ≥ Optimized.MAX_FAILED_ATTEMPTS) :
    Optimized.validateRequest emit parseIso store cache now tenantId tsHdr sigHdr body failed =
      match emit "RateLimited" with
      | .ok _ => (⟨false, "Rate limit exceeded"⟩, failed.filter (fun t => now - 3600 < t))
      | .error _ =>
        (⟨false, "Internal validation error"⟩, failed.filter (fun t => now - 3600 < t)) := by
  unfold Optimized.validateRequest Optimized.validateRequestTry Optimized.isRateLimited
  simp only [htid, hts, hsig, Bool.and_self, Bool.true_and, if_true, decide_eq_true hlim]
  cases emit "RateLimited" <;> rfl

/-- Claim C2: while a lockout for the request's scope is active, the decision
is Deny even for a correctly signed request, because the lockout check runs
before signature verification and short-circuits everything after it.  In
the optimized authorizer, MAX_FAILED_ATTEMPTS failures within the last hour
deny the request with a result that is identical for every signature, secret
store, cache and body — in particular for the correct signature.  In the
wordpress-auth security implementation, a credential whose locked_until lies
in the future is denied with the lockout message for every supplied key id
and secret — again including the correct ones — before any secret is
decrypted or compared. -/
theorem lockout_supersedes_all_checks (emit : String → Except Unit Unit)
    (parseIso : String → Option ℚ) (store : Optimized.SecretVersion → Except Optimized.StoreErr String)
    (cache : Option String) (now : ℚ) (tenantId : String) (tsHdr sigHdr : Option String)
    (body : String) (failed : List ℚ)
    (htid : (tenantId != "") = true) (hts : truthy tsHdr = true) (hsig : truthy sigHdr = true)
    (hlim : (failed.filter (fun t => now - 3600 < t)).length ≥ Optimized.MAX_FAILED_ATTEMPTS) :
    (Optimized.validateRequest emit parseIso store cache now tenantId tsHdr sigHdr body
        failed).1.isAuthorized = false
      ∧ (∀ (parseIso2 : String → Option ℚ)
          (store2 : Optimized.SecretVersion → Except Optimized.StoreErr String)
          (cache2 : Option String) (sigHdr2 : Option String) (body2 : String),
          truthy sigHdr2 = true →
            Optimized.validateRequest emit parseIso2 store2 cache2 now tenantId tsHdr sigHdr2
                body2 failed =
              Optimized.validateRequest emit parseIso store cache now tenantId tsHdr sigHdr body
                failed)
      ∧ (∀ (hash512 : String → String) (decrypt : String → Except Unit String)
          (lockoutMinutes : ℚ) (c : SecurityImpl.Credential) (lockTime : ℚ)
          (keyId secret siteDomain : String),
          c.locked_until = some lockTime → lockTime > now →
            (SecurityImpl.validateSecureCredentials hash512 decrypt lockoutMinutes true (some c)
                now keyId secret siteDomain).1 =
              .error "Account temporarily locked due to security violations") := by
  refine ⟨?_, ?_, ?_⟩
  · rw [validateRequest_lockedOut emit parseIso store cache now tenantId tsHdr sigHdr body failed
      htid hts hsig hlim]
    cases emit "RateLimited" <;> rfl
  · intro parseIso2 store2 cache2 sigHdr2 body2 hsig2
    rw [validateRequest_lockedOut emit parseIso store cache now tenantId tsHdr sigHdr body failed
        htid hts hsig hlim,
      validateRequest_lockedOut emit parseIso2 store2 cache2 now tenantId tsHdr sigHdr2 body2
        failed htid hts hsig2 hlim]
  · intro hash512 decrypt lockoutMinutes c lockTime keyId secret siteDomain hlock hfuture
    unfold SecurityImpl.validateSecureCredentials
    simp [hlock, hfuture]

/-- Witness for C2: ten failures 999 seconds ago lock the tenant out at time
1000 and the request is denied even though its signature header is present
(and would be correct); a credential locked until time 2000 is denied at
time 1000 for any supplied secret. -/
theorem lockout_supersedes_all_checks_witness :
    (Optimized.validateRequest (fun _ => .ok ()) (fun _ => some 1000)
        (fun _ => .ok "secret") none 1000 "tenant" (some "1000") (some "aa") "payload"
        (List.replicate 10 (999 : ℚ))).1.isAuthorized = false
      ∧ (SecurityImpl.validateSecureCredentials (fun s => s) (fun s => .ok s) 15 true
          (some ⟨"kid", "sec", "sec:dom:kid", "acct", 0, some 2000, 4000, "active"⟩)
          1000 "kid" "sec" "dom").1 =
        .error "Account temporarily locked due to security violations" := by
  have h := lockout_supersedes_all_checks (fun _ => .ok ()) (fun _ => some 1000)
    (fun _ => .ok "secret") none 1000 "tenant" (some "1000") (some "aa") "payload"
    (List.replicate 10 (999 : ℚ)) (by decide) (by decide) (by decide) (by decide)
  exact ⟨h.1, h.2.2 (fun s => s) (fun s => .ok s) 15
    ⟨"kid", "sec", "sec:dom:kid", "acct", 0, some 2000, 4000, "active"⟩ 2000 "kid" "sec" "dom"
    rfl (by decide)⟩

/-! ## Claim C3: transient secret-store failures and the failure counter -/

/-- Claim C3, as stated, is false on the code: a transient secret-store
failure (AWSCURRENT fails with a non-NotFound error and the AWSPENDING retry
fails too) is indistinguishable to `validate_request` from an absent tenant —
`_get_tenant_secret` returns None for both — so the deny branch calls
`_record_failed_attempt` and the tenant's failure count grows.  Concretely:
with an empty failure list, a fresh timestamp and a store failing
transiently on both versions, the decision is the Invalid-tenant deny and
the failure list has gained an entry, where the claim requires it unchanged. -/
theorem unavailable_increments_counter_counterexample :
    Optimized.validateRequest (fun _ => .ok ()) (fun _ => some 1000)
        (fun _ => .error .other) none 1000 "tenant" (some "1000") (some "aa") "payload" [] =
      (⟨false, "Invalid tenant"⟩, [(1000 : ℚ)])
      ∧ ([(1000 : ℚ)] ≠ []) := by
  constructor
  · rfl
  · decide

/-- Claim C3 (amended): when the secret store fails transiently on the
current version and the pending-version retry also fails, the decision is
Deny (the Invalid-tenant result) but the tenant's failure count is
incremented, not left unchanged: the code cannot distinguish the
infrastructure fault from an absent tenant, and penalizes both. -/
theorem unavailable_denies_and_increments (emit : String → Except Unit Unit)
    (parseIso : String → Option ℚ) (store : Optimized.SecretVersion → Except Optimized.StoreErr String)
    (now : ℚ) (tenantId : String) (tsHdr sigHdr : Option String) (body : String) (failed : List ℚ)
    (htid : (tenantId != "") = true) (hts : truthy tsHdr = true) (hsig : truthy sigHdr = true)
    (hnotlim : ¬ (failed.filter (fun t => now - 3600 < t)).length ≥ Optimized.MAX_FAILED_ATTEMPTS)
    (hfresh : Optimized.validateTimestamp parseIso now (tsHdr.getD "") = true)
    (hcur : store .current = .error .other)
    (hpend : ∃ e, store .pending = .error e)
    (hemit : emit "InvalidTenant" = .ok ()) :
    Optimized.validateRequest emit parseIso store none now tenantId tsHdr sigHdr body failed =
      (⟨false, "Invalid tenant"⟩, failed.filter (fun t => now - 3600 < t) ++ [now]) := by
  obtain ⟨e, he⟩ := hpend
  unfold Optimized.validateRequest Optimized.validateRequestTry Optimized.isRateLimited
  simp only [htid, hts, hsig, Bool.and_self, Bool.true_and, if_true,
    decide_eq_false hnotlim, hfresh, Bool.not_true, Bool.false_eq_true, if_false,
    Optimized.getTenantSecret, hcur, he, Optimized.recordFailedAttempt, hemit]

/-- Witness for the amended C3 theorem: the counterexample scenario run
through the theorem, showing the Invalid-tenant deny together with the
appended failure entry. -/
theorem unavailable_denies_and_increments_witness :
    Optimized.validateRequest (fun _ => .ok ()) (fun _ => some 1000)
        (fun _ => .error .other) none 1000 "tenant" (some "1000") (some "aa") "payload" [] =
      (⟨false, "Invalid tenant"⟩, [(1000 : ℚ)]) := by
  have h := unavailable_denies_and_increments (fun _ => .ok ()) (fun _ => some 1000)
    (fun _ => .error .other) 1000 "tenant" (some "1000") (some "aa") "payload" []
    (by decide) (by decide) (by decide) (by decide) (by decide) rfl ⟨.other, rfl⟩ rfl
  simpa using h

/-! ## Claim C9: no exception escapes; failures map to Deny -/

/-- Claim C9: `validate_request` always hands back a result record carrying
the isAuthorized boolean — when any internal step raises, the catch-all
handler turns it into the Internal-validation-error deny, with the state the
raise left behind; and `lambda_handler` maps a raising validator call to the
Internal-error deny policy, so every request yields an explicit Allow or
Deny policy and never an exception. -/
theorem validation_never_propagates_exceptions (emit : String → Except Unit Unit)
    (parseIso : String → Option ℚ) (store : Optimized.SecretVersion → Except Optimized.StoreErr String)
    (cache : Option String) (now : ℚ) (tenantId : String) (tsHdr sigHdr : Option String)
    (body : String) (failed : List ℚ) (validate : Unit → Except Unit Optimized.ValidationResult)
    (tenantHdr : Option String) :
    ((∀ e st,
        Optimized.validateRequestTry emit parseIso store cache now tenantId tsHdr sigHdr body
            failed = (.error e, st) →
          Optimized.validateRequest emit parseIso store cache now tenantId tsHdr sigHdr body
              failed = (⟨false, "Internal validation error"⟩, st)
            ∧ (Optimized.validateRequest emit parseIso store cache now tenantId tsHdr sigHdr body
                failed).1.isAuthorized = false)
      ∧ (truthy tenantHdr = true → (∃ e, validate () = .error e) →
          Optimized.lambdaHandler validate tenantHdr = Optimized.generateDenyPolicy "Internal error")
      ∧ ((Optimized.lambdaHandler validate tenantHdr).effect = "Allow"
          ∨ (Optimized.lambdaHandler validate tenantHdr).effect = "Deny")) := by
  refine ⟨?_, ?_, ?_⟩
  · intro e st htry
    have hv : Optimized.validateRequest emit parseIso store cache now tenantId tsHdr sigHdr body
        failed = (⟨false, "Internal validation error"⟩, st) := by
      unfold Optimized.validateRequest
      rw [htry]
    exact ⟨hv, by rw [hv]⟩
  · intro h hex
    obtain ⟨e, hval⟩ := hex
    unfold Optimized.lambdaHandler
    simp [h, hval]
  · unfold Optimized.lambdaHandler
    by_cases h : truthy tenantHdr
    · simp [h]
      cases hval : validate () with
      | error e => simp [Optimized.generateDenyPolicy]
      | ok r =>
        by_cases hr : r.isAuthorized
        · simp [hr, Optimized.generateAllowPolicy]
        · simp [hr, Optimized.generateDenyPolicy]
    · simp [h, Optimized.generateDenyPolicy]

/-- Witness for C9: a metrics sink whose first emission raises makes the
missing-header branch raise, and the wrapper converts it to the
Internal-validation-error deny; a raising validator call makes the handler
return the Internal-error deny policy. -/
theorem validation_never_propagates_exceptions_witness :
    Optimized.validateRequest (fun _ => .error ()) (fun _ => none) (fun _ => .error .other)
        none 0 "" none none "" [] = (⟨false, "Internal validation error"⟩, [])
      ∧ Optimized.lambdaHandler (fun _ => .error ()) (some "tenant") =
          Optimized.generateDenyPolicy "Internal error" := by
  have h := validation_never_propagates_exceptions (fun _ => .error ()) (fun _ => none)
    (fun _ => .error .other) none 0 "" none none "" [] (fun _ => .error ()) (some "tenant")
  exact ⟨(h.1 () [] rfl).1, h.2.1 (by decide) ⟨(), rfl⟩⟩

/-! ## Claim C1: what signature verification accepts -/

/-- The sixteen lower-case hex characters. -/
def lowerHexChars : List Char := "0123456789abcdef".data

/-- A hex digit of a value below 16 is a lower-case hex character. -/
theorem hexDigitChar_mem (n : Nat) (h : n < 16) : hexDigitChar n ∈ lowerHexChars := by
  interval_cases n <;> decide

/-- Every character of a byte's hex rendering is lower-case hex. -/
theorem byteToHex_mem (b : Nat) (c : Char) (hc : c ∈ byteToHex b) : c ∈ lowerHexChars := by
  have h4 : (b >>> 4) &&& 0xF < 16 := Nat.lt_succ_of_le (Nat.and_le_right)
  have h0 : b &&& 0xF < 16 := Nat.lt_succ_of_le (Nat.and_le_right)
  simp only [byteToHex, List.mem_cons, List.mem_singleton, List.not_mem_nil, or_false] at hc
  rcases hc with rfl | rfl
  · exact hexDigitChar_mem _ h4
  · exact hexDigitChar_mem _ h0

/-- Every character the hexdigest emits is lower-case hex. -/
theorem hexDigest_lower (bs : List Nat) (c : Char) (hc : c ∈ (hexDigest bs).data) :
    c ∈ lowerHexChars := by
  induction bs with
  | nil => simp [hexDigest] at hc
  | cons b rest ih =>
    simp only [hexDigest, String.mk] at hc ih
    rw [List.foldr_cons, List.mem_append] at hc
    rcases hc with h | h
    · exact byteToHex_mem b c h
    · exact ih h

/-- The canonical message bytes of the optimized authorizer: UTF-8 of the
timestamp, the newline byte, UTF-8 of the body — with no re-serialization. -/
theorem optimized_message_bytes (timestamp body : String) :
    strBytes (timestamp ++ "\n" ++ body) = strBytes timestamp ++ [10] ++ strBytes body := by
  rw [strBytes_append, strBytes_append]
  simp [List.append_assoc, show strBytes "\n" = [10] from rfl]

/-- The colon-joined message bytes of the ultra-simple handler. -/
theorem ultraSimple_message_bytes (timestamp body : String) :
    strBytes (timestamp ++ ":" ++ body) = strBytes timestamp ++ [58] ++ strBytes body := by
  rw [strBytes_append, strBytes_append]
  simp [List.append_assoc, show strBytes ":" = [58] from rfl]

/-- Claim C1 (amended): the optimized authorizer's verification succeeds
exactly when the supplied signature equals the hex digest — always lower-case
hex — of HMAC-SHA256 over the exact bytes timestamp, newline, raw body.  The
ultra-simple handler does not satisfy the claim: its message joins timestamp
and body with a colon instead of a newline, it lower-cases the supplied
signature first, and its verification also embeds the header and freshness
checks, so a success there pins the (lower-cased) signature to the
colon-message digest. -/
theorem signature_verification_amended :
    (∀ secret timestamp body signature : String,
        (Optimized.validateHmacSignature timestamp body signature secret = true ↔
          signature = hexDigest (hmacSha256 (strBytes secret)
            (strBytes timestamp ++ [10] ++ strBytes body))))
      ∧ (∀ (secret timestamp body : String),
          ∀ c ∈ (hexDigest (hmacSha256 (strBytes secret)
              (strBytes timestamp ++ [10] ++ strBytes body))).data, c ∈ lowerHexChars)
      ∧ (∀ (secret : String) (now : ℚ) (sigHdr tsHdr : Option String) (body : String),
          UltraSimple.validateHmac secret now sigHdr tsHdr body = true →
            UltraSimple.pyLower (sigHdr.getD "") =
              UltraSimple.pyLower (hexDigest (hmacSha256 (strBytes secret)
                (strBytes (tsHdr.getD "") ++ [58] ++ strBytes body)))) := by
  refine ⟨?_, ?_, ?_⟩
  · intro secret timestamp body signature
    simp only [Optimized.validateHmacSignature]
    rw [optimized_message_bytes]
    simp only [beq_iff_eq]
    exact eq_comm
  · intro secret timestamp body c hc
    exact hexDigest_lower _ c hc
  · intro secret now sigHdr tsHdr body hval
    simp only [UltraSimple.validateHmac] at hval
    by_cases h1 : (UltraSimple.pyLower (sigHdr.getD "") == "" || (tsHdr.getD "") == "") = true
    · simp [h1] at hval
    · simp only [h1, if_false, Bool.false_eq_true] at hval
      cases hp : UltraSimple.pyFloat (tsHdr.getD "") with
      | none => rw [hp] at hval; exact absurd hval (by simp)
      | some t =>
        rw [hp] at hval
        by_cases h2 : pyAbs (now - t) > 300
        · simp [h2] at hval
        · simp only [h2, if_false] at hval
          rw [← ultraSimple_message_bytes]
          exact beq_iff_eq.mp hval

set_option maxRecDepth 2000000 in
set_option maxHeartbeats 2000000 in
/-- Claim C1, as stated, is false on the ultra-simple handler: with secret
s, timestamp 0 at time 0 (well inside tolerance) and body b, the supplied
signature is exactly the lower-case hex HMAC-SHA256 of the claimed canonical
message timestamp, newline, body — yet verification fails, because the
handler signs the colon-joined message instead. -/
theorem signature_verification_counterexample :
    UltraSimple.validateHmac "s" 0
        (some (hexDigest (hmacSha256 (strBytes "s") (strBytes "0\nb")))) (some "0") "b" = false
      ∧ hexDigest (hmacSha256 (strBytes "s") (strBytes "0\nb")) =
          hexDigest (hmacSha256 (strBytes "s") (strBytes "0" ++ [10] ++ strBytes "b")) := by
  constructor
  · decide
  · rfl

set_option maxRecDepth 2000000 in
set_option maxHeartbeats 2000000 in
/-- Witness for the amended C1 theorem: the correctly colon-signed request is
pinned by the theorem to the colon-message digest. -/
theorem signature_verification_amended_witness :
    UltraSimple.pyLower (hexDigest (hmacSha256 (strBytes "s") (strBytes "0:b"))) =
      UltraSimple.pyLower (hexDigest (hmacSha256 (strBytes "s")
        (strBytes "0" ++ [58] ++ strBytes "b"))) :=
  signature_verification_amended.2.2 "s" 0
    (some (hexDigest (hmacSha256 (strBytes "s") (strBytes "0:b")))) (some "0") "b" (by decide)

/-! ## Claim C5: the dedup layer rejects an exact repeat -/

/-- Claim C5 (spec-modelled dedup layer): with dedup enabled, a request whose
(tenant_id, timestamp, signature) tuple is unseen and which the validator
otherwise allows is Allowed and its tuple recorded; a second request carrying
the identical tuple — whatever its body, clock or failure state — is Denied
as a DuplicateRequest. -/
theorem dedup_first_allow_second_deny (seen : List (String × String × String))
    (emit : String → Except Unit Unit) (parseIso : String → Option ℚ)
    (store : Optimized.SecretVersion → Except Optimized.StoreErr String)
    (cache : Option String) (now : ℚ) (tenantId : String) (tsHdr sigHdr : Option String)
    (body : String) (failed : List ℚ)
    (hnew : (tenantId, tsHdr.getD "", sigHdr.getD "") ∉ seen)
    (hallow : (Optimized.validateRequest emit parseIso store cache now tenantId tsHdr sigHdr body
        failed).1.isAuthorized = true) :
    (Dedup.validateWithDedup true seen emit parseIso store cache now tenantId tsHdr sigHdr body
        failed).1.isAuthorized = true
      ∧ (Dedup.validateWithDedup true seen emit parseIso store cache now tenantId tsHdr sigHdr
          body failed).2.1 = seen ++ [(tenantId, tsHdr.getD "", sigHdr.getD "")]
      ∧ (∀ (emit2 : String → Except Unit Unit) (parseIso2 : String → Option ℚ)
          (store2 : Optimized.SecretVersion → Except Optimized.StoreErr String)
          (cache2 : Option String) (now2 : ℚ) (body2 : String) (failed2 : List ℚ),
          (Dedup.validateWithDedup true (seen ++ [(tenantId, tsHdr.getD "", sigHdr.getD "")])
              emit2 parseIso2 store2 cache2 now2 tenantId tsHdr sigHdr body2 failed2).1 =
            ⟨false, "DuplicateRequest"⟩) := by
  refine ⟨?_, ?_, ?_⟩
  · simp only [Dedup.validateWithDedup, if_true]
    rw [if_neg hnew]
    exact hallow
  · simp only [Dedup.validateWithDedup, if_true]
    rw [if_neg hnew]
  · intro emit2 parseIso2 store2 cache2 now2 body2 failed2
    simp only [Dedup.validateWithDedup, if_true]
    rw [if_pos (by simp)]

set_option maxRecDepth 2000000 in
set_option maxHeartbeats 2000000 in
/-- Witness for C5: a concrete correctly signed request at time 1000 is
Allowed with an empty seen-set, and its exact repeat is Denied as a
DuplicateRequest. -/
theorem dedup_first_allow_second_deny_witness :
    (Dedup.validateWithDedup true [] (fun _ => .ok ()) (fun _ => some 1000) (fun _ => .ok "s")
        none 1000 "tenant" (some "1000")
        (some (hexDigest (hmacSha256 (strBytes "s") (strBytes ("1000" ++ "\n" ++ "b"))))) "b"
        []).1.isAuthorized = true
      ∧ (Dedup.validateWithDedup true
          [("tenant", "1000", hexDigest (hmacSha256 (strBytes "s") (strBytes ("1000" ++ "\n" ++ "b"))))]
          (fun _ => .ok ()) (fun _ => some 1000) (fun _ => .ok "s") none 1000 "tenant"
          (some "1000")
          (some (hexDigest (hmacSha256 (strBytes "s") (strBytes ("1000" ++ "\n" ++ "b"))))) "b"
          []).1 = ⟨false, "DuplicateRequest"⟩ := by
  have h := dedup_first_allow_second_deny [] (fun _ => .ok ()) (fun _ => some 1000)
    (fun _ => .ok "s") none 1000 "tenant" (some "1000")
    (some (hexDigest (hmacSha256 (strBytes "s") (strBytes ("1000" ++ "\n" ++ "b"))))) "b" []
    (by simp) (by decide)
  refine ⟨h.1, ?_⟩
  have h2 := h.2.2 (fun _ => .ok ()) (fun _ => some 1000) (fun _ => .ok "s") none 1000 "b" []
  simpa using h2

/-! ## Claim C8: what a successful validation does to the failure count -/

/-- Helper: when the try body of `validate_request` finishes without raising
and its result is the success, the failure list it hands back is exactly the
hour-pruned input list. -/
theorem validateRequestTry_success_shape (emit : String → Except Unit Unit)
    (parseIso : String → Option ℚ) (store : Optimized.SecretVersion → Except Optimized.StoreErr String)
    (cache : Option String) (now : ℚ) (tenantId : String) (tsHdr sigHdr : Option String)
    (body : String) (failed : List ℚ) (r : Optimized.ValidationResult) (st : List ℚ) :
    Optimized.validateRequestTry emit parseIso store cache now tenantId tsHdr sigHdr body
        failed = (.ok r, st) → r.isAuthorized = true →
      st = failed.filter (fun t => now - 3600 < t) := by
  simp only [Optimized.validateRequestTry, Optimized.isRateLimited,
    Optimized.recordFailedAttempt]
  repeat' split
  all_goals intro hE hr
  all_goals
    first
    | (obtain ⟨rfl, rfl⟩ := hE
       simp_all)
    | simp_all

/-- Helper: whenever the optimized authorizer allows a request, the failure
list it hands back is exactly the hour-pruned input list — a success never
resets it to empty (pruning is the only change, and it also happens on the
denial paths that get past the header check). -/
theorem validateRequest_success_keeps_failures (emit : String → Except Unit Unit)
    (parseIso : String → Option ℚ) (store : Optimized.SecretVersion → Except Optimized.StoreErr String)
    (cache : Option String) (now : ℚ) (tenantId : String) (tsHdr sigHdr : Option String)
    (body : String) (failed : List ℚ)
    (h : (Optimized.validateRequest emit parseIso store cache now tenantId tsHdr sigHdr body
        failed).1.isAuthorized = true) :
    (Optimized.validateRequest emit parseIso store cache now tenantId tsHdr sigHdr body
        failed).2 = failed.filter (fun t => now - 3600 < t) := by
  unfold Optimized.validateRequest at h ⊢
  cases hT : Optimized.validateRequestTry emit parseIso store cache now tenantId tsHdr sigHdr
    body failed with
  | mk res st2 =>
    rw [hT] at h
    cases res with
    | error e => exact absurd h (by simp)
    | ok r =>
      exact validateRequestTry_success_shape emit parseIso store cache now tenantId tsHdr sigHdr
        body failed r st2 hT h

set_option maxRecDepth 2000000 in
set_option maxHeartbeats 2000000 in
/-- Claim C8, as stated, is false on the optimized authorizer: a correctly
signed request at time 1000 with one failure recorded at time 999 is allowed,
yet the failure list coming out still holds that prior failure — nothing is
reset to zero on success. -/
theorem success_reset_counterexample :
    (Optimized.validateRequest (fun _ => .ok ()) (fun _ => some 1000) (fun _ => .ok "s") none
        1000 "tenant" (some "1000")
        (some (hexDigest (hmacSha256 (strBytes "s") (strBytes ("1000" ++ "\n" ++ "b"))))) "b"
        [(999 : ℚ)]).1.isAuthorized = true
      ∧ (Optimized.validateRequest (fun _ => .ok ()) (fun _ => some 1000) (fun _ => .ok "s") none
          1000 "tenant" (some "1000")
          (some (hexDigest (hmacSha256 (strBytes "s") (strBytes ("1000" ++ "\n" ++ "b"))))) "b"
          [(999 : ℚ)]).2 = [(999 : ℚ)]
      ∧ ([(999 : ℚ)] ≠ ([] : List ℚ)) := by
  refine ⟨by decide, by decide, by decide⟩

/-- Claim C8 (amended): the two success paths differ.  In the wordpress-auth
security implementation, a validation that succeeds writes the credential
back with failed_attempts reset to zero, exactly as the claim says.  In the
optimized authorizer, a successful validation leaves the in-memory failure
list unchanged apart from the hour pruning every request performs — prior
failures inside the horizon keep counting toward lockout. -/
theorem success_reset_amended :
    (∀ (hash512 : String → String) (decrypt : String → Except Unit String)
        (lockoutMinutes : ℚ) (rateOk : Bool) (c : SecurityImpl.Credential) (now : ℚ)
        (keyId secret siteDomain acct : String),
        (SecurityImpl.validateSecureCredentials hash512 decrypt lockoutMinutes rateOk (some c)
            now keyId secret siteDomain).1 = .ok acct →
          (SecurityImpl.validateSecureCredentials hash512 decrypt lockoutMinutes rateOk (some c)
              now keyId secret siteDomain).2 = some (SecurityImpl.updateSuccessfulAuth c)
            ∧ (SecurityImpl.updateSuccessfulAuth c).failed_attempts = 0)
      ∧ (∀ (emit : String → Except Unit Unit) (parseIso : String → Option ℚ)
          (store : Optimized.SecretVersion → Except Optimized.StoreErr String)
          (cache : Option String) (now : ℚ) (tenantId : String) (tsHdr sigHdr : Option String)
          (body : String) (failed : List ℚ),
          (Optimized.validateRequest emit parseIso store cache now tenantId tsHdr sigHdr body
              failed).1.isAuthorized = true →
            (Optimized.validateRequest emit parseIso store cache now tenantId tsHdr sigHdr body
                failed).2 = failed.filter (fun t => now - 3600 < t)) := by
  constructor
  · intro hash512 decrypt lockoutMinutes rateOk c now keyId secret siteDomain acct hOk
    have hpair : (SecurityImpl.validateSecureCredentials hash512 decrypt lockoutMinutes rateOk
        (some c) now keyId secret siteDomain).2 = some (SecurityImpl.updateSuccessfulAuth c) := by
      revert hOk
      simp only [SecurityImpl.validateSecureCredentials, SecurityImpl.validateAfterLockCheck]
      repeat' split
      all_goals intro hOk
      all_goals simp_all
    exact ⟨hpair, rfl⟩
  · exact fun emit parseIso store cache now tenantId tsHdr sigHdr body failed h =>
      validateRequest_success_keeps_failures emit parseIso store cache now tenantId tsHdr sigHdr
        body failed h

/-- Witness for the amended C8 theorem: a matching credential validates
successfully and comes back with failed_attempts 0 (it had 3), and the
concrete allowed request of the counterexample keeps its recent failure. -/
theorem success_reset_amended_witness :
    (SecurityImpl.validateSecureCredentials (fun s => s) (fun s => .ok s) 15 true
        (some ⟨"kid", "sec", "sec:dom:kid", "acct", 3, none, 4000, "active"⟩) 1000
        "kid" "sec" "dom").2 =
      some (SecurityImpl.updateSuccessfulAuth
        ⟨"kid", "sec", "sec:dom:kid", "acct", 3, none, 4000, "active"⟩)
      ∧ (SecurityImpl.updateSuccessfulAuth
          ⟨"kid", "sec", "sec:dom:kid", "acct", 3, none, 4000, "active"⟩).failed_attempts = 0 :=
  success_reset_amended.1 (fun s => s) (fun s => .ok s) 15 true
    ⟨"kid", "sec", "sec:dom:kid", "acct", 3, none, 4000, "active"⟩ 1000 "kid" "sec" "dom"
    "acct" rfl

/-! ## Claim C10: the ingest handler's size and emptiness guards -/

/-- A list of whitespace repeats is all-whitespace. -/
theorem replicate_space_all (n : Nat) (c : Char) (h : UltraSimple.pyIsSpace c = true) :
    (List.replicate n c).all UltraSimple.pyIsSpace = true := by
  induction n with
  | zero => rfl
  | succ k ih => simp [List.replicate_succ, h, ih]

/-- Claim C10, as stated, is false at one corner: a whitespace-only body
longer than 262144 characters is answered 413, not 400, because the size
check runs before the emptiness check.  The claim's universal 400 for
whitespace-only bodies therefore fails on this input (the 413 itself, and
the absence of writes, are as claimed). -/
theorem ingest_guards_counterexample :
    UltraSimple.lambdaHandler "s" 0 "POST" none none (String.mk (List.replicate 262145 ' '))
        true true true = (413, [])
      ∧ UltraSimple.stripIsEmpty (String.mk (List.replicate 262145 ' ')) = true
      ∧ (413 : Nat) ≠ 400 := by
  refine ⟨?_, ?_, by decide⟩
  · have hlen : (String.mk (List.replicate 262145 ' ')).length = 262145 := by
      show (List.replicate 262145 ' ').length = 262145
      rw [List.length_replicate]
    simp only [UltraSimple.lambdaHandler, UltraSimple.MAX_PAYLOAD_SIZE, hlen,
      show (("POST" : String) == "OPTIONS") = false from rfl,
      show (("POST" : String) != "POST") = false from rfl, Bool.false_eq_true, if_false]
    norm_num
  · unfold UltraSimple.stripIsEmpty
    exact replicate_space_all 262145 ' ' (by decide)

/-- Claim C10 (amended): on a POST request, a body longer than MAX_PAYLOAD_SIZE
(262144) is answered 413, and a body within the limit that is empty or
whitespace-only is answered 400; both responses are fixed values with an
empty write list, produced for every signature header, timestamp header,
JSON outcome, HMAC outcome and store outcome — so the handler returns before
any HMAC verification and writes nothing. -/
theorem ingest_size_and_empty_guards (secret : String) (now : ℚ) (sigHdr tsHdr : Option String)
    (bodyStr : String) (jsonOk formOrMeta storeOk : Bool) :
    (bodyStr.length > UltraSimple.MAX_PAYLOAD_SIZE →
        UltraSimple.lambdaHandler secret now "POST" sigHdr tsHdr bodyStr jsonOk formOrMeta
          storeOk = (413, []))
      ∧ (¬ bodyStr.length > UltraSimple.MAX_PAYLOAD_SIZE →
          UltraSimple.stripIsEmpty bodyStr = true →
            UltraSimple.lambdaHandler secret now "POST" sigHdr tsHdr bodyStr jsonOk formOrMeta
              storeOk = (400, [])) := by
  constructor
  · intro h
    simp [UltraSimple.lambdaHandler, h]
  · intro h1 h2
    simp [UltraSimple.lambdaHandler, h1, h2]

/-- Witness for the amended C10 theorem: an oversized body draws 413 with no
writes; a three-space body draws 400 with no writes. -/
theorem ingest_size_and_empty_guards_witness :
    UltraSimple.lambdaHandler "s" 0 "POST" none none (String.mk (List.replicate 262145 'a'))
        true true true = (413, [])
      ∧ UltraSimple.lambdaHandler "s" 0 "POST" none none "   " true true true = (400, []) := by
  have hlen : (String.mk (List.replicate 262145 'a')).length = 262145 := by
    show (List.replicate 262145 'a').length = 262145
    rw [List.length_replicate]
  constructor
  · exact (ingest_size_and_empty_guards "s" 0 none none (String.mk (List.replicate 262145 'a'))
      true true true).1 (by rw [hlen]; norm_num [UltraSimple.MAX_PAYLOAD_SIZE])
  · exact (ingest_size_and_empty_guards "s" 0 none none "   " true true true).2
      (by decide) (by decide)

end ClaimTheorems
